import Mathlib

/-
Verification of the TicTacToe ("jeux") game server against its
natural-language specification.  The C modules are shallowly embedded:
the game module (game.c), the invitation module (invitation.c), the
player rating update (player.c), the per-client invitation list
(client.c), the packet codec control flow (protocol.c) and the
ACK/NACK construction (client.c / server.c).  Machine integers are
modelled as Int (no overflow is reachable in the quantities involved:
board cells hold -1, 0, 1; ratings and ids stay far below 2^31 in every
statement below).  Mutexes, reference counts and debug output are
concurrency and diagnostics plumbing with no effect on the values
computed, and are not part of the embedding.
-/

namespace Jeux

/-- GAME_ROLE from jeux.h: NULL_ROLE, FIRST_PLAYER_ROLE (X), SECOND_PLAYER_ROLE (O). -/
inductive GAME_ROLE where
  | NULL_ROLE
  | FIRST_PLAYER_ROLE
  | SECOND_PLAYER_ROLE
deriving DecidableEq

export GAME_ROLE (NULL_ROLE FIRST_PLAYER_ROLE SECOND_PLAYER_ROLE)

/-- struct game (game.c): the nine cells hold -1 (empty), 1 (X) or 0 (O);
isOver is the termination flag; expectedPiece is the piece that must be
played next (1 = X, 0 = O).  The count field and the mutex are reference
counting and locking plumbing, omitted. -/
structure GameState where
  game_board : Fin 9 → Int
  isOver : Bool
  winner : GAME_ROLE
  expectedPiece : Int

/-- struct game_move (game.c). -/
structure GAME_MOVE where
  piece : Int
  placement : Int
deriving DecidableEq

/-- C array index game_board[i].  In C an access outside 0..8 is undefined
behaviour; the totalisation below (clamping to cell 0) is never relied on:
every theorem below restricts placements to the defined range 1..9. -/
def cellIdx (i : Int) : Fin 9 :=
  if h : 0 ≤ i ∧ i < 9 then ⟨i.toNat, by omega⟩ else 0

/-- game_create (game.c lines 33-47): empty board, not over, no winner,
X expected first. -/
def game_create : GameState :=
  { game_board := fun _ => -1
    isOver := false
    winner := NULL_ROLE
    expectedPiece := 1 }

/-- One of the eight line checks of game_apply_move: the guard
game_board[i] != -1 followed by the two equality tests. -/
def lineP (b : Fin 9 → Int) (i j k : Fin 9) : Prop :=
  b i ≠ -1 ∧ b i = b j ∧ b j = b k

instance (b : Fin 9 → Int) (i j k : Fin 9) : Decidable (lineP b i j k) := by
  unfold lineP; infer_instance

/-- Winner role chosen by game_apply_move when a line is found:
FIRST_PLAYER_ROLE when the line piece is 1, SECOND_PLAYER_ROLE otherwise. -/
def pieceRole (v : Int) : GAME_ROLE :=
  if v = 1 then FIRST_PLAYER_ROLE else SECOND_PLAYER_ROLE

/-- The win detection of game_apply_move (game.c lines 105-152), in source
order: the two diagonals first (each with an early return), then the
unrolled loop interleaving rows (i = 0, 3, 6) and columns (j = 0, 1, 2)
with a break at the first hit. -/
def detectWinner (b : Fin 9 → Int) : Option GAME_ROLE :=
  if lineP b 0 4 8 then some (pieceRole (b 0))
  else if lineP b 2 4 6 then some (pieceRole (b 2))
  else if lineP b 0 1 2 then some (pieceRole (b 0))
  else if lineP b 0 3 6 then some (pieceRole (b 0))
  else if lineP b 3 4 5 then some (pieceRole (b 3))
  else if lineP b 1 4 7 then some (pieceRole (b 1))
  else if lineP b 6 7 8 then some (pieceRole (b 6))
  else if lineP b 2 5 8 then some (pieceRole (b 2))
  else none

/-- The board-full check of game_apply_move (game.c lines 153-163):
cleared stays 1 exactly when no cell is -1. -/
def boardFull (b : Fin 9 → Int) : Prop :=
  ∀ i, b i ≠ -1

instance (b : Fin 9 → Int) : Decidable (boardFull b) := by
  unfold boardFull; infer_instance

/-- The board after game_apply_move stores the piece:
game_board[placement - 1] = piece. -/
def applyBoard (g : GameState) (m : GAME_MOVE) : Fin 9 → Int :=
  Function.update g.game_board (cellIdx (m.placement - 1)) m.piece

/-- The state produced by a successful game_apply_move: the piece is
placed, expectedPiece flips, then win detection and the draw check run. -/
def applyOutcome (g : GameState) (m : GAME_MOVE) : GameState :=
  match detectWinner (applyBoard g m) with
  | some w =>
      { g with game_board := applyBoard g m,
               expectedPiece := 1 - g.expectedPiece,
               isOver := true, winner := w }
  | none =>
      if boardFull (applyBoard g m) then
        { g with game_board := applyBoard g m,
                 expectedPiece := 1 - g.expectedPiece,
                 isOver := true, winner := NULL_ROLE }
      else
        { g with game_board := applyBoard g m,
                 expectedPiece := 1 - g.expectedPiece }

/-- game_apply_move (game.c lines 97-168).  Return value -1 with the state
unchanged when the game is over, the cell is occupied, or the piece is not
the expected one; otherwise 0 and the updated state. -/
def game_apply_move (g : GameState) (m : GAME_MOVE) : Int × GameState :=
  if g.isOver = true ∨ g.game_board (cellIdx (m.placement - 1)) ≠ -1 ∨
      g.expectedPiece ≠ m.piece then
    (-1, g)
  else
    (0, applyOutcome g m)

/-- game_resign (game.c lines 177-191). -/
def game_resign (g : GameState) (role : GAME_ROLE) : Int × GameState :=
  if g.isOver = true then
    (-1, g)
  else
    (0, { g with isOver := true,
                 winner := if role = FIRST_PLAYER_ROLE then SECOND_PLAYER_ROLE
                           else FIRST_PLAYER_ROLE })

/-- game_is_over (game.c lines 247-252). -/
def game_is_over (g : GameState) : Bool := g.isOver

/-- game_get_winner (game.c lines 262-267). -/
def game_get_winner (g : GameState) : GAME_ROLE := g.winner

/-- C character read str[i] on a NUL-terminated string: reading at or past
the end of the list yields the NUL terminator. -/
def charAt (s : List Char) (i : Nat) : Char := s.getD i (Char.ofNat 0)

/-- The piece-scanning loop of game_parse_move (game.c lines 293-301):
for i from 1 while i < strlen(str), the first x/X gives piece 1, the first
o/O gives piece 0; reaching the end of the string (a NUL) leaves piece -1,
which game_parse_move turns into NULL.  Strings are modelled as the list
of characters before the NUL terminator; a NUL inside the list ends the
scan exactly as strlen would. -/
def findPiece : List Char → Option Int
  | [] => none
  | c :: rest =>
      if c.toNat = 0 then none
      else if c = 'x' ∨ c = 'X' then some 1
      else if c = 'o' ∨ c = 'O' then some 0
      else findPiece rest

/-- game_parse_move (game.c lines 285-311).  placement is (int)str[0] - 48.
The range test on line 288 is transcribed verbatim: the source writes
placement <= 0 AND placement >= 10, a condition no integer satisfies, so
no placement is ever rejected.  The game and role parameters are unused by
the source body. -/
def game_parse_move (game : GameState) (role : GAME_ROLE) (str : List Char) :
    Option GAME_MOVE :=
  let placement : Int := ((charAt str 0).toNat : Int) - 48
  if placement ≤ 0 ∧ placement ≥ 10 then none
  else
    match findPiece (str.drop 1) with
    | none => none
    | some p => some { piece := p, placement := placement }

/-- game_unparse_move (game.c lines 324-337): the four characters
placement+48, then a separator consisting of the two characters 45 and 62,
then X or O; the trailing NUL of the calloc buffer is the string end. -/
def game_unparse_move (m : GAME_MOVE) : List Char :=
  [Char.ofNat (m.placement + 48).toNat, '-', '>',
   if m.piece = 1 then 'X' else 'O']


/-- A game that is over: the result of resigning a fresh game. -/
def resignedGame : GameState := (game_resign game_create NULL_ROLE).2

/-- Game states reachable from game_create by successful game_apply_move
calls only.  The placement bounds 1..9 delimit the range on which the C
array access game_board[placement - 1] is defined. -/
inductive ReachableByMoves : GameState → Prop where
  | init : ReachableByMoves game_create
  | step (g : GameState) (m : GAME_MOVE) : ReachableByMoves g →
      1 ≤ m.placement → m.placement ≤ 9 → (game_apply_move g m).1 = 0 →
      ReachableByMoves (game_apply_move g m).2

/-- Game states reachable from game_create by successful game_apply_move
and game_resign calls. -/
inductive ReachableGame : GameState → Prop where
  | init : ReachableGame game_create
  | move (g : GameState) (m : GAME_MOVE) : ReachableGame g →
      1 ≤ m.placement → m.placement ≤ 9 → (game_apply_move g m).1 = 0 →
      ReachableGame (game_apply_move g m).2
  | resign (g : GameState) (r : GAME_ROLE) : ReachableGame g →
      (game_resign g r).1 = 0 → ReachableGame (game_resign g r).2

/-- The eight winning lines of the board: three rows, three columns and the
two diagonals, with three equal non-empty pieces. -/
def hasLine (b : Fin 9 → Int) : Prop :=
  lineP b 0 4 8 ∨ lineP b 2 4 6 ∨ lineP b 0 1 2 ∨ lineP b 0 3 6 ∨
  lineP b 3 4 5 ∨ lineP b 1 4 7 ∨ lineP b 6 7 8 ∨ lineP b 2 5 8

instance (b : Fin 9 → Int) : Decidable (hasLine b) := by
  unfold hasLine; infer_instance

/-- The winner-line invariant used for C7: while the game is running the
winner is NULL_ROLE and the board has no line, and at every moment the
winner is non-NULL exactly when the board has a line. -/
def WinnerInv (g : GameState) : Prop :=
  (g.isOver = false → g.winner = NULL_ROLE ∧ ¬ hasLine g.game_board) ∧
  (g.winner ≠ NULL_ROLE ↔ hasLine g.game_board)

/-- Number of cells of the board holding the value t. -/
def countVal (b : Fin 9 → Int) (t : Int) : Nat :=
  (Finset.univ.filter fun j => b j = t).card

/-- Number of X pieces (cell value 1) on the board of a game. -/
def countX (g : GameState) : Nat := countVal g.game_board 1

/-- Number of O pieces (cell value 0) on the board of a game. -/
def countO (g : GameState) : Nat := countVal g.game_board 0

/-- The piece-count invariant used for C10: either X is expected
(expectedPiece = 1) and the piece counts are equal, or O is expected
(expectedPiece = 0) and X is one ahead. -/
def PieceInv (g : GameState) : Prop :=
  (g.expectedPiece = 1 ∧ countX g = countO g) ∨
  (g.expectedPiece = 0 ∧ countX g = countO g + 1)

/-- INVITATION_STATE from invitation.h. -/
inductive INVITATION_STATE where
  | INV_OPEN_STATE
  | INV_ACCEPTED_STATE
  | INV_CLOSED_STATE
deriving DecidableEq

export INVITATION_STATE (INV_OPEN_STATE INV_ACCEPTED_STATE INV_CLOSED_STATE)

/-- struct invitation (invitation.c): the state, the associated game
(NULL until accepted) and the two roles.  The source and target CLIENT
pointers, the reference count and the semaphore do not affect the
transition functions and are omitted. -/
structure InvitationData where
  source_role : GAME_ROLE
  target_role : GAME_ROLE
  state : INVITATION_STATE
  game : Option GameState

/-- inv_create (invitation.c lines 122-140): OPEN, no game. -/
def inv_create (source_role target_role : GAME_ROLE) : InvitationData :=
  { source_role := source_role, target_role := target_role,
    state := INV_OPEN_STATE, game := none }

/-- inv_accept (invitation.c lines 273-284). -/
def inv_accept (i : InvitationData) : Int × InvitationData :=
  if i.state ≠ INV_OPEN_STATE then
    (-1, i)
  else
    (0, { i with state := INV_ACCEPTED_STATE, game := some game_create })

/-- inv_close (invitation.c lines 300-324): rejects unless the state is
OPEN or ACCEPTED; closes directly when there is no game or the game is
over; with a running game, NULL_ROLE is rejected and any other role
resigns the game before closing. -/
def inv_close (i : InvitationData) (role : GAME_ROLE) : Int × InvitationData :=
  if i.state ≠ INV_OPEN_STATE ∧ i.state ≠ INV_ACCEPTED_STATE then
    (-1, i)
  else
    match i.game with
    | none => (0, { i with state := INV_CLOSED_STATE })
    | some g =>
        if game_is_over g = true then
          (0, { i with state := INV_CLOSED_STATE })
        else if role = NULL_ROLE then
          (-1, i)
        else
          (0, { i with state := INV_CLOSED_STATE,
                       game := some (game_resign g role).2 })

/-- Whether the game held by an invitation is over (false when there is
no game), as game_is_over reports it to inv_close. -/
def inv_game_over (i : InvitationData) : Bool :=
  match i.game with
  | none => false
  | some g => game_is_over g

/-- A freshly created invitation, used to instantiate C5. -/
def freshInvitation : InvitationData :=
  inv_create FIRST_PLAYER_ROLE SECOND_PLAYER_ROLE

/-- struct invite_node (client.c lines 33-37): a list node holding the
local id and the INVITATION pointer; pointers are abstracted to a Nat
identity tag. -/
structure INVITE_NODE where
  id : Int
  invitation : Nat
deriving DecidableEq

/-- struct client (client.c lines 45-53), restricted to the fields the
invitation-list operations touch: the singly linked list headed at
inviteHead and the invites counter.  fd, player, the reference count
and the mutex play no part in the list operations. -/
structure CLIENT where
  inviteHead : List INVITE_NODE
  invites : Int
deriving DecidableEq

/-- client_create (client.c lines 68-80): empty list, invites = 0. -/
def client_create : CLIENT := { inviteHead := [], invites := 0 }

/-- client_add_invitation (client.c lines 340-360): the new node gets
id = invites, invites is incremented, the node is appended at the tail,
and the assigned id is returned. -/
def client_add_invitation (c : CLIENT) (inv : Nat) : Int × CLIENT :=
  (c.invites,
   { inviteHead := c.inviteHead ++ [{ id := c.invites, invitation := inv }],
     invites := c.invites + 1 })

/-- The scan of client_remove_invitation (client.c lines 372-401): the
head special case plus the prev/current loop remove the first node whose
invitation pointer matches, returning its id and the remaining list. -/
def removeFirstNode : List INVITE_NODE → Nat → Option (Int × List INVITE_NODE)
  | [], _ => none
  | n :: rest, inv =>
      if n.invitation = inv then some (n.id, rest)
      else
        match removeFirstNode rest inv with
        | none => none
        | some (i, rest2) => some (i, n :: rest2)

/-- client_remove_invitation (client.c lines 372-401): on a hit the node
is unlinked, invites is DECREMENTED, and the stored id is returned; when
the invitation is not in the list the result is -1 and nothing changes. -/
def client_remove_invitation (c : CLIENT) (inv : Nat) : Int × CLIENT :=
  match removeFirstNode c.inviteHead inv with
  | none => (-1, c)
  | some (i, rest) => (i, { inviteHead := rest, invites := c.invites - 1 })

/-- The client after adding invitations 10 and 20 to a fresh client:
they receive the ids 0 and 1. -/
def clientAfterTwoAdds : CLIENT :=
  (client_add_invitation (client_add_invitation client_create 10).2 20).2

/-- The same client after removing invitation 10 again: because
client_remove_invitation decrements the invites counter, the counter
falls back to 1 while the node with id 1 is still in the list. -/
def clientAfterRemove : CLIENT :=
  (client_remove_invitation clientAfterTwoAdds 10).2

/-- Return values of successive read(2) or write(2) calls on a stream:
-1 is an error, 0 is end of file on a read, a positive value is a count
of bytes transferred (possibly short). -/
def IoTrace : Type := Nat → Int

/-- proto_send_packet (protocol.c lines 29-41), as a function of the
results of the write calls it issues.  The source performs ONE write for
the 16-byte header and, when ntohs(hdr->size) > 0 and data is non-NULL,
ONE write for the payload; it checks each result only against -1, so a
short write is accepted silently and never retried. -/
def proto_send_packet (writes : IoTrace) (sizePositive dataPresent : Bool) :
    Int :=
  if writes 0 = -1 then -1
  else if sizePositive && dataPresent then
    if writes 1 = -1 then -1 else 0
  else 0

/-- proto_recv_packet (protocol.c lines 58-81), as a function of the
results of the read calls it issues and of whether the size field of the
header as stored reads as positive.  The source performs ONE read for the
16-byte header (-1 and 0 both yield -1) and, when the size is positive,
ONE read for the payload checked only against -1: a short header read, a
short payload read and a payload read returning 0 (EOF in the middle of
the packet) are all accepted as success. -/
def proto_recv_packet (reads : IoTrace) (sizePositive : Bool) : Int :=
  if reads 0 = -1 then -1
  else if reads 0 = 0 then -1
  else if sizePositive then
    if reads 1 = -1 then -1 else 0
  else 0

/-- A stream whose first read delivers the full 16-byte header and whose
second read reports EOF. -/
def headerThenEof : IoTrace := fun i => if i = 0 then 16 else 0

/-- A stream whose first write transfers only 4 of the requested bytes. -/
def shortFirstWrite : IoTrace := fun i => if i = 0 then 4 else 0

/-- Packet types from jeux.h used by the reply paths of the server. -/
inductive JEUX_PACKET_TYPE where
  | JEUX_ACK_PKT
  | JEUX_NACK_PKT
  | JEUX_INVITED_PKT
  | JEUX_REVOKED_PKT
  | JEUX_DECLINED_PKT
  | JEUX_ACCEPTED_PKT
  | JEUX_MOVED_PKT
  | JEUX_RESIGNED_PKT
  | JEUX_ENDED_PKT
deriving DecidableEq

/-- JEUX_PACKET_HEADER (protocol.h, quoted in client.c lines 278-286),
restricted to the fields the sender fills in before client_send_packet
stamps the timestamps: type, id, role and size. -/
structure JEUX_PACKET_HEADER where
  ptype : JEUX_PACKET_TYPE
  id : Nat
  role : Nat
  size : Nat
deriving DecidableEq

/-- client_send_ack (client.c lines 297-307): type ACK, id = 0, role = 0,
size = datalen. -/
def client_send_ack (datalen : Nat) : JEUX_PACKET_HEADER :=
  { ptype := JEUX_PACKET_TYPE.JEUX_ACK_PKT, id := 0, role := 0,
    size := datalen }

/-- client_send_nack (client.c lines 316-326): type NACK, id = 0,
role = 0, size = 0. -/
def client_send_nack : JEUX_PACKET_HEADER :=
  { ptype := JEUX_PACKET_TYPE.JEUX_NACK_PKT, id := 0, role := 0, size := 0 }

/-- The reply of the ACCEPT branch of jeux_client_service (server.c lines
211-234): on failure a NACK, on success an ACK whose payload is the
initial state string when client_accept_invitation returned one.  The
header never carries the invitation id. -/
def accept_branch_reply (ok : Bool) (strp : Option Nat) : JEUX_PACKET_HEADER :=
  if ok then
    match strp with
    | some len => client_send_ack len
    | none => client_send_ack 0
  else client_send_nack

/-
player_post_result (player.c lines 472-498) computes with C float
arithmetic; it is modelled here over the real numbers.  The chosen
concrete inputs keep every intermediate value far from the nearest
integer boundary (the contested quantity 32*(1 - 1/101) = 31.683... is
separated from 31 and 32 by more than any float rounding error of the
computation), so the real-valued model and the float code truncate to
the same integers there.
-/

/-- The C cast (int)x applied to a float: truncation toward zero. -/
noncomputable def cIntCast (x : ℝ) : Int := if 0 ≤ x then ⌊x⌋ else ⌈x⌉

/-- Score S1 of player1 (player.c lines 475-486): 0.5 on a draw
(result 0), 1 when player1 won (result 1), else 0. -/
noncomputable def pscore1 (resultCode : Int) : ℝ :=
  if resultCode = 0 then 0.5 else if resultCode = 1 then 1 else 0

/-- Score S2 of player2 (player.c lines 475-486). -/
noncomputable def pscore2 (resultCode : Int) : ℝ :=
  if resultCode = 0 then 0.5 else if resultCode = 1 then 0 else 1

/-- player_post_result (player.c lines 472-498) on the two ratings:
E1 = 1/(1 + 10^((R2-R1)/400)), E2 with the roles swapped, and the
updates newR1 = R1 + (int)(32*(S1-E1)), newR2 = R2 + (int)(32*(S2-E2)).
The delta is truncated toward zero by the C cast before it is added;
the claim under examination says it is rounded. -/
noncomputable def player_post_result (r1 r2 resultCode : Int) : Int × Int :=
  (r1 + cIntCast (32 * (pscore1 resultCode -
      1 / (1 + (10 : ℝ) ^ ((((r2 : ℝ)) - ((r1 : ℝ))) / 400)))),
   r2 + cIntCast (32 * (pscore2 resultCode -
      1 / (1 + (10 : ℝ) ^ ((((r1 : ℝ)) - ((r2 : ℝ))) / 400)))))

/-- The expected-score formula exactly as the specification states it:
E = 1/(1 + 10^((Rb - Ra)/400)) for the player rated Ra. -/
noncomputable def eloExpected (ra rb : Int) : ℝ :=
  1 / (1 + (10 : ℝ) ^ ((((rb : ℝ)) - ((ra : ℝ))) / 400))

/-- Modelled from the amended specification wording: new ratings
R1 + trunc(32*(S1-E1)) and R2 + trunc(32*(S2-E2)), the C cast
truncating toward zero in place of the round the claim asserts. -/
noncomputable def elo_update_amended (r1 r2 resultCode : Int) : Int × Int :=
  (r1 + cIntCast (32 * (pscore1 resultCode - eloExpected r1 r2)),
   r2 + cIntCast (32 * (pscore2 resultCode - eloExpected r2 r1)))

/-- C1: the claim asserts that game_parse_move accepts exactly the strings
cell or cell-sep-piece with cell in 1..9, a bare cell parsing successfully
and out-of-range cells rejected.  The code does neither: its range check
(placement <= 0 AND placement >= 10) is unsatisfiable, so the string with
cell 0 and piece X is accepted (with placement 0), and a piece letter is
mandatory, so the bare one-character string 5 is rejected. -/
theorem c1_parse_move_range_and_bare_cell :
    game_parse_move game_create NULL_ROLE ['0', '-', '>', 'X'] =
      some { piece := 1, placement := 0 } ∧
    game_parse_move game_create NULL_ROLE ['5'] = none := by
  constructor
  · rfl
  · rfl

/-- C6: once a game is over, game_apply_move and game_resign both fail and
return the state unchanged: the cells, the expected piece and the winner
never change afterwards. -/
theorem c6_over_monotonic (g : GameState) (m : GAME_MOVE) (r : GAME_ROLE)
    (h : g.isOver = true) :
    game_apply_move g m = (-1, g) ∧ game_resign g r = (-1, g) := by
  constructor
  · unfold game_apply_move
    rw [if_pos (Or.inl h)]
  · unfold game_resign
    rw [if_pos h]

/-- Witness for C6 at the concrete over state resignedGame. -/
theorem c6_over_monotonic_witness :
    game_apply_move resignedGame { piece := 1, placement := 5 } =
      (-1, resignedGame) ∧
    game_resign resignedGame NULL_ROLE = (-1, resignedGame) :=
  c6_over_monotonic resignedGame { piece := 1, placement := 5 } NULL_ROLE rfl

/-- C8: for every parseable move (placement 1..9, piece X = 1 or O = 0),
parsing the string produced by game_unparse_move recovers the same move,
whatever game and role are passed to the parser. -/
theorem c8_parse_unparse_roundtrip (g : GameState) (r : GAME_ROLE)
    (m : GAME_MOVE) (h1 : 1 ≤ m.placement) (h2 : m.placement ≤ 9)
    (h3 : m.piece = 0 ∨ m.piece = 1) :
    game_parse_move g r (game_unparse_move m) = some m := by
  obtain ⟨pc, pl⟩ := m
  simp only at h1 h2 h3
  interval_cases pl <;> rcases h3 with h3 | h3 <;> subst h3 <;> rfl

/-- Witness for C8 at the move X on cell 5. -/
theorem c8_parse_unparse_roundtrip_witness :
    game_parse_move game_create NULL_ROLE
      (game_unparse_move { piece := 1, placement := 5 }) =
      some { piece := 1, placement := 5 } :=
  c8_parse_unparse_roundtrip game_create NULL_ROLE
    { piece := 1, placement := 5 } (by decide) (by decide) (Or.inr rfl)

theorem pieceRole_ne_null (v : Int) : pieceRole v ≠ NULL_ROLE := by
  unfold pieceRole
  split <;> decide

theorem detectWinner_eq_none_iff (b : Fin 9 → Int) :
    detectWinner b = none ↔ ¬ hasLine b := by
  unfold detectWinner hasLine
  split_ifs <;> simp_all

theorem detectWinner_eq_some (b : Fin 9 → Int) (w : GAME_ROLE)
    (h : detectWinner b = some w) : w ≠ NULL_ROLE ∧ hasLine b := by
  unfold detectWinner at h
  unfold hasLine
  split_ifs at h
  all_goals first
  | exact Option.noConfusion h
  | (injection h with hw
     exact ⟨hw ▸ pieceRole_ne_null _, by tauto⟩)

/-- Shape of a successful game_apply_move: the guard must have failed, so
the game was not over, the cell was empty, the piece was the expected one,
and the new state is applyOutcome. -/
theorem apply_move_success (g : GameState) (m : GAME_MOVE)
    (h : (game_apply_move g m).1 = 0) :
    g.isOver = false ∧ g.game_board (cellIdx (m.placement - 1)) = -1 ∧
    g.expectedPiece = m.piece ∧ (game_apply_move g m).2 = applyOutcome g m := by
  by_cases hc : g.isOver = true ∨ g.game_board (cellIdx (m.placement - 1)) ≠ -1 ∨
      g.expectedPiece ≠ m.piece
  · exfalso
    unfold game_apply_move at h
    rw [if_pos hc] at h
    norm_num at h
  · push_neg at hc
    obtain ⟨h1, h2, h3⟩ := hc
    refine ⟨by simpa using h1, h2, h3, ?_⟩
    unfold game_apply_move
    rw [if_neg (by push_neg; exact ⟨h1, h2, h3⟩)]

theorem winnerInv_create : WinnerInv game_create := by
  constructor
  · intro _
    exact ⟨rfl, by decide⟩
  · constructor
    · intro h
      exact absurd rfl h
    · intro h
      exact absurd h (by decide)

theorem winnerInv_step (g : GameState) (m : GAME_MOVE) (hInv : WinnerInv g)
    (h : (game_apply_move g m).1 = 0) : WinnerInv (game_apply_move g m).2 := by
  obtain ⟨hover, hempty, hpiece, heq⟩ := apply_move_success g m h
  rw [heq]
  unfold applyOutcome
  cases hdw : detectWinner (applyBoard g m) with
  | some w =>
    obtain ⟨hwne, hline⟩ := detectWinner_eq_some _ w hdw
    simp only [hdw]
    constructor
    · intro hfalse
      simp at hfalse
    · exact iff_of_true hwne hline
  | none =>
    have hnoline : ¬ hasLine (applyBoard g m) :=
      (detectWinner_eq_none_iff _).mp hdw
    simp only [hdw]
    by_cases hf : boardFull (applyBoard g m)
    · rw [if_pos hf]
      constructor
      · intro hfalse
        simp at hfalse
      · exact iff_of_false (by simp) hnoline
    · rw [if_neg hf]
      obtain ⟨hwin, _⟩ := hInv.1 hover
      constructor
      · intro _
        exact ⟨hwin, hnoline⟩
      · exact iff_of_false (by simp [hwin]) hnoline

/-- C7 counterexample: the claim quantifies over states reachable by
successful game_apply_move AND game_resign operations, but resigning a
fresh game produces a reachable state whose winner is non-NULL while the
board (still empty) has no three-in-a-row. -/
theorem c7_resign_without_line :
    ReachableGame (game_resign game_create FIRST_PLAYER_ROLE).2 ∧
    (game_resign game_create FIRST_PLAYER_ROLE).2.winner ≠ NULL_ROLE ∧
    ¬ hasLine (game_resign game_create FIRST_PLAYER_ROLE).2.game_board := by
  refine ⟨ReachableGame.resign game_create FIRST_PLAYER_ROLE ReachableGame.init rfl, ?_, ?_⟩
  · decide
  · decide

/-- C7 as amended: in every game state reachable from game_create by
successful game_apply_move operations (no resignations), the winner is
non-NULL exactly when the board contains three equal pieces on one of the
eight winning lines. -/
theorem c7_winner_iff_line (g : GameState) (h : ReachableByMoves g) :
    g.winner ≠ NULL_ROLE ↔ hasLine g.game_board := by
  have hInv : WinnerInv g := by
    induction h with
    | init => exact winnerInv_create
    | step g' m _ _ _ hs ih => exact winnerInv_step g' m ih hs
  exact hInv.2

/-- Witness for C7 (amended) at the initial state. -/
theorem c7_winner_iff_line_witness :
    game_create.winner ≠ NULL_ROLE ↔ hasLine game_create.game_board :=
  c7_winner_iff_line game_create ReachableByMoves.init

theorem countVal_update (b : Fin 9 → Int) (i : Fin 9) (v t : Int)
    (hbi : b i ≠ t) :
    countVal (Function.update b i v) t =
      countVal b t + (if v = t then 1 else 0) := by
  unfold countVal
  by_cases hv : v = t
  · rw [if_pos hv]
    have hset : (Finset.univ.filter fun j => Function.update b i v j = t) =
        insert i (Finset.univ.filter fun j => b j = t) := by
      ext j
      by_cases hj : j = i
      · subst hj
        simp [Function.update_apply, hv]
      · simp [Function.update_apply, hj]
    rw [hset, Finset.card_insert_of_not_mem (by simp [hbi])]
  · rw [if_neg hv]
    have hset : (Finset.univ.filter fun j => Function.update b i v j = t) =
        Finset.univ.filter fun j => b j = t := by
      ext j
      by_cases hj : j = i
      · subst hj
        simp [Function.update_apply, hv, hbi]
      · simp [Function.update_apply, hj]
    rw [hset]
    omega

theorem applyOutcome_fields (g : GameState) (m : GAME_MOVE) :
    (applyOutcome g m).game_board = applyBoard g m ∧
    (applyOutcome g m).expectedPiece = 1 - g.expectedPiece := by
  unfold applyOutcome
  cases hdw : detectWinner (applyBoard g m) with
  | some w => simp [hdw]
  | none =>
    by_cases hf : boardFull (applyBoard g m) <;> simp [hdw, hf]

theorem pieceInv_create : PieceInv game_create := by
  left
  exact ⟨rfl, by decide⟩

theorem pieceInv_step (g : GameState) (m : GAME_MOVE) (hInv : PieceInv g)
    (h : (game_apply_move g m).1 = 0) : PieceInv (game_apply_move g m).2 := by
  obtain ⟨_, hempty, hpiece, heq⟩ := apply_move_success g m h
  obtain ⟨hboard, hexp⟩ := applyOutcome_fields g m
  rw [heq]
  have hX : countX (applyOutcome g m) =
      countX g + (if m.piece = 1 then 1 else 0) := by
    unfold countX
    rw [hboard]
    unfold applyBoard
    rw [countVal_update _ _ _ _ (by rw [hempty]; decide)]
  have hO : countO (applyOutcome g m) =
      countO g + (if m.piece = 0 then 1 else 0) := by
    unfold countO
    rw [hboard]
    unfold applyBoard
    rw [countVal_update _ _ _ _ (by rw [hempty]; decide)]
  rcases hInv with ⟨he, hc⟩ | ⟨he, hc⟩
  · right
    have hp : m.piece = 1 := by rw [← hpiece, he]
    constructor
    · rw [hexp, he]
      norm_num
    · rw [hX, hO, hp, hc]
      norm_num
  · left
    have hp : m.piece = 0 := by rw [← hpiece, he]
    constructor
    · rw [hexp, he]
      norm_num
    · rw [hX, hO, hp, hc]
      norm_num

/-- C10: in every state reachable from game_create by successful
game_apply_move calls, the number of X pieces minus the number of O pieces
is 0 or 1, and it is 0 exactly when X (piece value 1, the FIRST role) is
the expected piece. -/
theorem c10_piece_balance (g : GameState) (h : ReachableByMoves g) :
    (countX g = countO g ∨ countX g = countO g + 1) ∧
    (countX g = countO g ↔ g.expectedPiece = 1) := by
  have hInv : PieceInv g := by
    induction h with
    | init => exact pieceInv_create
    | step g' m _ _ _ hs ih => exact pieceInv_step g' m ih hs
  rcases hInv with ⟨he, hc⟩ | ⟨he, hc⟩
  · exact ⟨Or.inl hc, iff_of_true hc he⟩
  · refine ⟨Or.inr hc, iff_of_false ?_ ?_⟩
    · omega
    · rw [he]
      decide

/-- Witness for C10 at the initial state. -/
theorem c10_piece_balance_witness :
    (countX game_create = countO game_create ∨
      countX game_create = countO game_create + 1) ∧
    (countX game_create = countO game_create ↔
      game_create.expectedPiece = 1) :=
  c10_piece_balance game_create ReachableByMoves.init

/-- C5: the invitation transitions implement exactly the specified state
machine.  Under the structural facts established by inv_create and
inv_accept (an OPEN invitation has no game, an ACCEPTED one has a game):
inv_accept succeeds exactly from OPEN, moving to ACCEPTED and creating a
fresh game; inv_close succeeds exactly from OPEN (any role) or from
ACCEPTED when the game is over or the role is not NULL_ROLE (in the
latter case resigning the game for that role); every other combination,
including anything from CLOSED, fails with -1 and leaves the invitation
unchanged. -/
theorem c5_invitation_state_machine (i : InvitationData) (role : GAME_ROLE)
    (hwf : (i.state = INV_OPEN_STATE → i.game = none) ∧
           (i.state = INV_ACCEPTED_STATE → i.game.isSome = true)) :
    ((inv_accept i).1 = 0 ↔ i.state = INV_OPEN_STATE) ∧
    ((inv_accept i).1 = 0 →
      (inv_accept i).2.state = INV_ACCEPTED_STATE ∧
      (inv_accept i).2.game = some game_create) ∧
    ((inv_accept i).1 ≠ 0 → inv_accept i = (-1, i)) ∧
    ((inv_close i role).1 = 0 ↔
      (i.state = INV_OPEN_STATE ∨
        (i.state = INV_ACCEPTED_STATE ∧
          (inv_game_over i = true ∨ role ≠ NULL_ROLE)))) ∧
    ((inv_close i role).1 = 0 → (inv_close i role).2.state = INV_CLOSED_STATE) ∧
    ((inv_close i role).1 ≠ 0 → inv_close i role = (-1, i)) ∧
    (∀ g, i.game = some g → i.state = INV_ACCEPTED_STATE →
      g.isOver = false → role ≠ NULL_ROLE →
      (inv_close i role).2.game = some (game_resign g role).2) := by
  obtain ⟨hwf1, hwf2⟩ := hwf
  obtain ⟨sr, tr, st, gm⟩ := i
  simp only at hwf1 hwf2
  cases st with
  | INV_OPEN_STATE =>
    have hgm : gm = none := hwf1 rfl
    subst hgm
    refine ⟨by simp [inv_accept], ?_, ?_, ?_, ?_, ?_, ?_⟩
    · intro _
      simp [inv_accept]
    · intro hne
      exact absurd (by simp [inv_accept]) hne
    · simp [inv_close]
    · intro _
      simp [inv_close]
    · intro hne
      exact absurd (by simp [inv_close]) hne
    · intro g hg
      exact absurd hg (by simp)
  | INV_ACCEPTED_STATE =>
    cases gm with
    | none => exact absurd (hwf2 rfl) (by simp)
    | some g =>
      have haccept : inv_accept ⟨sr, tr, INV_ACCEPTED_STATE, some g⟩ =
          (-1, ⟨sr, tr, INV_ACCEPTED_STATE, some g⟩) := by
        simp [inv_accept]
      refine ⟨by simp [haccept], by simp [haccept], fun _ => haccept, ?_, ?_, ?_, ?_⟩
      · by_cases hov : game_is_over g = true
        · simp [inv_close, hov, inv_game_over]
        · by_cases hrole : role = NULL_ROLE
          · simp [inv_close, hov, hrole, inv_game_over]
          · simp [inv_close, hov, hrole, inv_game_over]
      · intro hz
        unfold inv_close at hz ⊢
        simp only [show ¬((INV_ACCEPTED_STATE ≠ INV_OPEN_STATE) ∧
          (INV_ACCEPTED_STATE ≠ INV_ACCEPTED_STATE)) from by simp,
          if_neg] at hz ⊢
        by_cases hov : game_is_over g = true
        · simp [hov]
        · by_cases hrole : role = NULL_ROLE
          · simp [hov, hrole] at hz
          · simp [hov, hrole]
      · intro hne
        unfold inv_close at hne ⊢
        by_cases hov : game_is_over g = true
        · simp [hov] at hne
        · by_cases hrole : role = NULL_ROLE
          · simp [hov, hrole]
          · simp [hov, hrole] at hne
      · intro g' hg' _ hov hrole
        injection hg' with hg'
        subst hg'
        unfold inv_close
        simp [game_is_over, hov, hrole]
  | INV_CLOSED_STATE =>
    refine ⟨by simp [inv_accept], by simp [inv_accept], ?_, by simp [inv_close], by simp [inv_close], ?_, ?_⟩
    · intro _
      simp [inv_accept]
    · intro _
      simp [inv_close]
    · intro g _ hst
      exact absurd hst (by simp)

/-- Witness for C5: the success-condition component instantiated at a
fresh OPEN invitation with role NULL_ROLE. -/
theorem c5_invitation_state_machine_witness :
    (inv_accept freshInvitation).1 = 0 ↔
      freshInvitation.state = INV_OPEN_STATE :=
  (c5_invitation_state_machine freshInvitation NULL_ROLE
    ⟨fun _ => rfl, fun h => absurd h (by decide)⟩).1

/-- C3: the claim says local invitation ids are assigned monotonically and
never reused while the client lives.  The code decrements the invites
counter on every removal, so after add(10), add(20), remove(10) the next
add is assigned id 1 again — the id the live entry for invitation 20
already holds — leaving two simultaneous entries with the same id. -/
theorem c3_invitation_id_reuse :
    (client_add_invitation clientAfterTwoAdds 30).1 = 2 ∧
    (client_remove_invitation clientAfterTwoAdds 10).1 = 0 ∧
    (client_add_invitation clientAfterRemove 30).1 = 1 ∧
    (client_add_invitation clientAfterRemove 30).2.inviteHead.map INVITE_NODE.id
      = [1, 1] := by
  refine ⟨rfl, rfl, rfl, rfl⟩

/-- C4: the claim requires both functions to loop until the exact byte
counts are transferred and to surface any mid-packet EOF or short
transfer as -1.  The code does neither: receiving a packet whose payload
read hits EOF returns 0 (success), and sending over a stream that accepts
only 4 of the 16 header bytes also returns 0. -/
theorem c4_no_loop_midpacket_eof_accepted :
    proto_recv_packet headerThenEof true = 0 ∧
    proto_send_packet shortFirstWrite true true = 0 := by
  refine ⟨rfl, rfl⟩

/-- C9: every ACK and NACK the server sends is built by client_send_ack or
client_send_nack, which hard-code id = 0 and role = 0 — including the ACK
answering an ACCEPT request — so no acknowledgment ever carries an
invitation id. -/
theorem c9_ack_nack_zero_id_role (datalen : Nat) (ok : Bool)
    (strp : Option Nat) :
    (client_send_ack datalen).id = 0 ∧ (client_send_ack datalen).role = 0 ∧
    client_send_nack.id = 0 ∧ client_send_nack.role = 0 ∧
    (accept_branch_reply ok strp).id = 0 ∧
    (accept_branch_reply ok strp).role = 0 := by
  refine ⟨rfl, rfl, rfl, rfl, ?_, ?_⟩ <;>
    cases ok <;> cases strp <;> rfl

theorem eloExpected_1500_2300 : eloExpected 1500 2300 = 1 / 101 := by
  unfold eloExpected
  rw [show ((((2300 : Int) : ℝ)) - (((1500 : Int) : ℝ))) / 400 = ((2 : ℕ) : ℝ)
    from by push_cast; norm_num]
  rw [Real.rpow_natCast]
  norm_num

theorem eloExpected_1500_1500 : eloExpected 1500 1500 = 1 / 2 := by
  unfold eloExpected
  rw [show ((((1500 : Int) : ℝ)) - (((1500 : Int) : ℝ))) / 400 = 0
    from by norm_num]
  rw [Real.rpow_zero]
  norm_num

/-- C2 counterexample: the claim says the new rating is
round(R1 + 32*(S1-E1)).  When a 1500-rated player beats a 2300-rated
player, E1 = 1/101 and 32*(1 - 1/101) = 31.683..., so the claimed
formula yields 1532 while the code, which truncates, produces 1531. -/
theorem c2_code_truncates_not_rounds :
    (player_post_result 1500 2300 1).1 = 1531 ∧
    round (((1500 : Int) : ℝ) + 32 * (1 - eloExpected 1500 2300)) = 1532 := by
  have hcode : (player_post_result 1500 2300 1).1 =
      (elo_update_amended 1500 2300 1).1 := rfl
  constructor
  · rw [hcode]
    unfold elo_update_amended
    rw [eloExpected_1500_2300]
    have harg : (32 : ℝ) * (pscore1 1 - 1 / 101) = 3200 / 101 := by
      unfold pscore1
      norm_num
    simp only [harg]
    rw [show cIntCast ((3200 : ℝ) / 101) = 31 from by
      unfold cIntCast
      rw [if_pos (by norm_num)]
      norm_num]
    norm_num
  · rw [eloExpected_1500_2300]
    norm_num [round_eq]

/-- C2 as amended: for all integer ratings and any outcome code, the new
ratings are R1 + trunc(32*(S1-E1)) and R2 + trunc(32*(S2-E2)) with the
expected scores of the specification and truncation toward zero in place
of rounding; the specific example of the claim survives: after a win
between two 1500-rated players the winner moves to 1516 and the loser to
1484, because the delta 32*(1-0.5) = 16 is exact. -/
theorem c2_elo_update_truncated (r1 r2 resultCode : Int) :
    player_post_result r1 r2 resultCode = elo_update_amended r1 r2 resultCode ∧
    player_post_result 1500 1500 1 = (1516, 1484) := by
  constructor
  · rfl
  · have h : player_post_result 1500 1500 1 = elo_update_amended 1500 1500 1 :=
      rfl
    rw [h]
    unfold elo_update_amended
    rw [eloExpected_1500_1500]
    have h1 : (32 : ℝ) * (pscore1 1 - 1 / 2) = 16 := by
      unfold pscore1
      norm_num
    have h2 : (32 : ℝ) * (pscore2 1 - 1 / 2) = -16 := by
      unfold pscore2
      norm_num
    simp only [h1, h2]
    rw [show cIntCast (16 : ℝ) = 16 from by
      unfold cIntCast
      rw [if_pos (by norm_num)]
      norm_num]
    rw [show cIntCast (-16 : ℝ) = -16 from by
      unfold cIntCast
      rw [if_neg (by norm_num)]
      rw [show (-16 : ℝ) = ((-16 : ℤ) : ℝ) from by norm_num]
      exact Int.ceil_intCast _]
    norm_num

end Jeux
